import Mathlib

/-!
Verification of the constrained single-facility location core of
`src/app.py` (waste-management-hub).

The embedded code is the block guarded by `if run_opt and zone_data:`
(lines 106-150): the helper predicates `inside_sri_lanka`,
`outside_exclusion`, `respect_buffer`, the composite `is_feasible`, and
the cost `objective`.  Coordinates are modelled as pairs of real
numbers; NumPy floating point arithmetic is modelled by exact real
arithmetic (`Real.sqrt` for `np.sqrt`, `Int.ceil` for `np.ceil`).

The geometric data (`sri_lanka_polygon`, `exclusion_clipped`,
`sensitive_coords`, `buffer_distance`) is produced by
`load_geographic_data` from shapefiles through GeoPandas/Shapely and is
treated, as the spec does, as an opaque external collaborator.  A
Shapely geometry partitions the plane into interior, boundary and
exterior (the DE-9IM point-set model), so a region is embedded as a
pair of disjoint predicates `interior` / `onBoundary`.
`Polygon.contains(Point)` in Shapely holds exactly when the point lies
in the topological interior of the polygon: a point on the boundary is
NOT contained (Shapely's boundary-inclusive test would be `covers`,
which the source never calls).  `Region.contains` below embeds that
semantics.
-/

open Classical

noncomputable section

/-- A planar coordinate `(x, y) = (longitude, latitude)`, the `xy`
pairs the Python code passes around. -/
abbrev Coordinate : Type := ℝ × ℝ

/-- A Shapely polygon / multipolygon, seen through the only operation
the source applies to it (`geometry.contains(Point)`): the disjoint
interior and boundary point sets of the DE-9IM model. -/
structure Region where
  interior : Coordinate → Prop
  onBoundary : Coordinate → Prop
  interior_boundary_disjoint : ∀ p, ¬ (interior p ∧ onBoundary p)

/-- Shapely `geom.contains(Point(x, y))`: true exactly when the point
lies in the topological interior of the geometry.  A point on the
boundary is not contained. -/
def Region.contains (r : Region) (p : Coordinate) : Prop :=
  r.interior p

/-- A point strictly outside a region: neither in its interior nor on
its boundary. -/
def Region.strictlyOutside (r : Region) (p : Coordinate) : Prop :=
  ¬ r.interior p ∧ ¬ r.onBoundary p

/-- A Shapely geometry with empty point set (e.g. an empty exclusion
union): no interior and no boundary points. -/
def Region.IsEmptyRegion (r : Region) : Prop :=
  (∀ p, ¬ r.interior p) ∧ (∀ p, ¬ r.onBoundary p)

/-- The fixed geographic data returned by `load_geographic_data` in
`src/app.py`: `sri_lanka_polygon`, `exclusion_clipped`,
`sensitive_coords`, `buffer_distance`. -/
structure Geometry where
  sri_lanka_polygon : Region
  exclusion_clipped : Region
  sensitive_coords : List Coordinate
  buffer_distance : ℝ

/-- `np.sqrt((a.1 - b.1)**2 + (a.2 - b.2)**2)`: planar Euclidean
distance between two coordinates, as computed in `respect_buffer` and
in the objective's `ti`. -/
def dist2D (a b : Coordinate) : ℝ :=
  Real.sqrt ((a.1 - b.1) ^ 2 + (a.2 - b.2) ^ 2)

/-- `inside_sri_lanka(x, y)` (src/app.py line 106):
`sri_lanka_polygon.contains(Point(x, y))`. -/
def inside_sri_lanka (G : Geometry) (x y : ℝ) : Prop :=
  G.sri_lanka_polygon.contains (x, y)

/-- `outside_exclusion(x, y)` (src/app.py line 109):
`not exclusion_clipped.contains(Point(x, y))`. -/
def outside_exclusion (G : Geometry) (x y : ℝ) : Prop :=
  ¬ G.exclusion_clipped.contains (x, y)

/-- The loop body of `respect_buffer` (src/app.py lines 113-116): walk
the list of sensitive coordinates, returning `False` as soon as one is
strictly closer than `buffer_distance`, and `True` when the list is
exhausted. -/
def bufferLoop (bd x y : ℝ) : List Coordinate → Prop
  | [] => True
  | f :: rest =>
      if dist2D (x, y) f < bd then False else bufferLoop bd x y rest

/-- `respect_buffer(x, y)` (src/app.py line 112): the loop over
`sensitive_coords` against `buffer_distance`. -/
def respect_buffer (G : Geometry) (x y : ℝ) : Prop :=
  bufferLoop G.buffer_distance x y G.sensitive_coords

/-- `is_feasible(xy)` (src/app.py line 118): the conjunction (Python
short-circuit `and`) of the three geometric checks. -/
def is_feasible (G : Geometry) (xy : Coordinate) : Prop :=
  inside_sri_lanka G xy.1 xy.2 ∧ outside_exclusion G xy.1 xy.2 ∧
    respect_buffer G xy.1 xy.2

/-- `vehicle_capacity = 5 / 1000` (src/app.py line 123). -/
def vehicle_capacity : ℝ := 5 / 1000

/-- `cost_per_km = 20 / 1000` (src/app.py line 124). -/
def cost_per_km : ℝ := 20 / 1000

/-- One row of the zone dataframe: a BOI zone / demand site with its
name, coordinates and daily waste quantity (tons/day). -/
structure Site where
  zoneName : String
  longitude : ℝ
  latitude : ℝ
  waste : ℝ

/-- `objective(xy)` (src/app.py lines 127-137).  If `xy` is infeasible
it returns the sentinel `1e9`; otherwise it folds over the dataframe
rows accumulating `cost_per_km * ni * ti` into `total_cost`, where
`Qi = waste / 1000` (the `df['Q']` column precomputed at line 125),
`ni = np.ceil(Qi / vehicle_capacity)` and `ti` is the Euclidean
distance from the site to `xy`. -/
def objective (G : Geometry) (sites : List Site) (xy : Coordinate) : ℝ :=
  if is_feasible G xy then
    sites.foldl
      (fun total_cost s =>
        let Qi := s.waste / 1000
        let ni : ℝ := (⌈Qi / vehicle_capacity⌉ : ℤ)
        let ti := dist2D (s.longitude, s.latitude) xy
        total_cost + cost_per_km * ni * ti)
      0
  else 1000000000

/-! ### Concrete geometries used as evaluation witnesses -/

/-- A region covering the whole plane, with no boundary. -/
def wholePlane : Region where
  interior := fun _ => True
  onBoundary := fun _ => False
  interior_boundary_disjoint := fun _ h => h.2

/-- The empty region: no interior, no boundary. -/
def emptyRegion : Region where
  interior := fun _ => False
  onBoundary := fun _ => False
  interior_boundary_disjoint := fun _ h => h.1

/-- The closed unit square as a Shapely-style region: open interior,
topological boundary on the four edges. -/
def unitSquare : Region where
  interior := fun p => 0 < p.1 ∧ p.1 < 1 ∧ 0 < p.2 ∧ p.2 < 1
  onBoundary := fun p =>
    (0 ≤ p.1 ∧ p.1 ≤ 1 ∧ 0 ≤ p.2 ∧ p.2 ≤ 1) ∧
      (p.1 = 0 ∨ p.1 = 1 ∨ p.2 = 0 ∨ p.2 = 1)
  interior_boundary_disjoint := by
    rintro p ⟨hi, _, he⟩
    rcases he with h | h | h | h <;> simp_all

/-- An unconstrained geometry: the whole plane is allowed, nothing is
excluded, no sensitive coordinates.  `buffer_distance` keeps the
source's value `0.0001`. -/
def openGeom : Geometry where
  sri_lanka_polygon := wholePlane
  exclusion_clipped := emptyRegion
  sensitive_coords := []
  buffer_distance := 1 / 10000

/-- A geometry whose allowed region is empty: every point is
infeasible. -/
def blockedGeom : Geometry where
  sri_lanka_polygon := emptyRegion
  exclusion_clipped := emptyRegion
  sensitive_coords := []
  buffer_distance := 1 / 10000

/-- A geometry whose allowed region is the unit square, used to
exercise boundary behaviour of the inside check. -/
def squareGeom : Geometry where
  sri_lanka_polygon := unitSquare
  exclusion_clipped := emptyRegion
  sensitive_coords := []
  buffer_distance := 1 / 10000

/-- A geometry with one sensitive coordinate at `(1, 0)` and buffer
distance `1`, used to exercise the exactly-at-buffer-distance case. -/
def bufferGeom : Geometry where
  sri_lanka_polygon := wholePlane
  exclusion_clipped := emptyRegion
  sensitive_coords := [(1, 0)]
  buffer_distance := 1

/-- A geometry whose exclusion region is the unit square, used to
exercise boundary behaviour of the exclusion check. -/
def exclGeom : Geometry where
  sri_lanka_polygon := wholePlane
  exclusion_clipped := unitSquare
  sensitive_coords := []
  buffer_distance := 1 / 10000

/-! ### Helper lemmas -/

/-- The buffer loop succeeds exactly when every sensitive coordinate is
at distance at least `bd`. -/
lemma bufferLoop_iff (bd x y : ℝ) (l : List Coordinate) :
    bufferLoop bd x y l ↔ ∀ f ∈ l, bd ≤ dist2D (x, y) f := by
  induction l with
  | nil => simp [bufferLoop]
  | cons f rest ih =>
      by_cases h : dist2D (x, y) f < bd
      · simp only [bufferLoop, if_pos h, false_iff]
        intro hall
        exact absurd (hall f (List.mem_cons_self f rest)) (not_le.mpr h)
      · simp [bufferLoop, h, ih, not_lt.mp h]

/-- Folding the per-site accumulation from `acc` equals `acc` plus the
sum of the per-site contributions. -/
lemma foldl_cost_eq_sum (f : Site → ℝ) (l : List Site) (acc : ℝ) :
    l.foldl (fun total s => total + f s) acc = acc + (l.map f).sum := by
  induction l generalizing acc with
  | nil => simp
  | cons s rest ih => simp [ih, add_assoc]

/-- On a feasible point the objective is the sum, over the dataframe
rows, of `cost_per_km * ni * ti`. -/
lemma objective_feasible_eq (G : Geometry) (sites : List Site)
    (p : Coordinate) (h : is_feasible G p) :
    objective G sites p =
      (sites.map (fun s =>
        cost_per_km * ((⌈(s.waste / 1000) / vehicle_capacity⌉ : ℤ) : ℝ) *
          dist2D (s.longitude, s.latitude) p)).sum := by
  simp only [objective, if_pos h]
  rw [show (fun (total_cost : ℝ) (s : Site) =>
        let Qi := s.waste / 1000
        let ni : ℝ := (⌈Qi / vehicle_capacity⌉ : ℤ)
        let ti := dist2D (s.longitude, s.latitude) p
        total_cost + cost_per_km * ni * ti) =
      (fun (total_cost : ℝ) (s : Site) => total_cost +
        cost_per_km * ((⌈(s.waste / 1000) / vehicle_capacity⌉ : ℤ) : ℝ) *
          dist2D (s.longitude, s.latitude) p) from rfl]
  rw [foldl_cost_eq_sum, zero_add]

/-- Every point is feasible for the unconstrained geometry. -/
lemma openGeom_feasible (p : Coordinate) : is_feasible openGeom p := by
  refine ⟨trivial, fun h => h, ?_⟩
  simp [respect_buffer, openGeom, bufferLoop]

/-- No point is feasible when the allowed region is empty. -/
lemma blockedGeom_infeasible (p : Coordinate) : ¬ is_feasible blockedGeom p :=
  fun h => h.1

/-- `(0, 1/2)` lies on the boundary of the unit square. -/
lemma unitSquare_boundary_left : unitSquare.onBoundary ((0 : ℝ), (1 / 2 : ℝ)) := by
  refine ⟨⟨le_refl 0, by norm_num⟩, Or.inl rfl⟩

/-! ### Claim theorems -/

/-- C1: for every feasible coordinate `p` and every list of demand
sites, `objective` returns the sum over the sites of
`costPerUnitDistance * ni * ti`, with `Qi = waste / 1000`,
`ni = ceil(Qi / vehicleCapacity)`, `vehicleCapacity = 5/1000`,
`costPerUnitDistance = 20/1000`, and `ti` the Euclidean distance from
the site's location to `p`. -/
theorem objective_feasible_is_trip_cost_sum (G : Geometry)
    (sites : List Site) (p : Coordinate) (h : is_feasible G p) :
    objective G sites p =
      (sites.map (fun s =>
        ((20 : ℝ) / 1000) *
          ((⌈(s.waste / 1000) / ((5 : ℝ) / 1000)⌉ : ℤ) : ℝ) *
          dist2D (s.longitude, s.latitude) p)).sum := by
  rw [objective_feasible_eq G sites p h]
  simp only [cost_per_km, vehicle_capacity]

/-- Evaluation witness for C1 at the unconstrained geometry, the point
`(80, 7)` and one zone of 2000 tons/day at `(80.2, 6.9)`. -/
theorem objective_feasible_is_trip_cost_sum_witness :
    is_feasible openGeom (80, 7) ∧
      objective openGeom [⟨"Zone 1", 80.2, 6.9, 2000⟩] (80, 7) =
        (([⟨"Zone 1", 80.2, 6.9, 2000⟩] : List Site).map (fun s =>
          ((20 : ℝ) / 1000) *
            ((⌈(s.waste / 1000) / ((5 : ℝ) / 1000)⌉ : ℤ) : ℝ) *
            dist2D (s.longitude, s.latitude) (80, 7))).sum :=
  ⟨openGeom_feasible (80, 7),
    objective_feasible_is_trip_cost_sum openGeom
      [⟨"Zone 1", 80.2, 6.9, 2000⟩] (80, 7) (openGeom_feasible (80, 7))⟩

/-- C2: for every infeasible coordinate `p` and every list of demand
sites, `objective` returns the large finite sentinel `1e9`
(= 1000000000), a value independent of the sites. -/
theorem objective_infeasible_sentinel (G : Geometry) (sites : List Site)
    (p : Coordinate) (h : ¬ is_feasible G p) :
    objective G sites p = 1000000000 := by
  simp only [objective, if_neg h]

/-- Evaluation witness for C2: with an empty allowed region the point
`(80, 7)` is infeasible and the objective is the sentinel, whatever
the (nonempty) site list says. -/
theorem objective_infeasible_sentinel_witness :
    ¬ is_feasible blockedGeom (80, 7) ∧
      objective blockedGeom [⟨"Zone 1", 80.2, 6.9, 2000⟩] (80, 7) =
        1000000000 :=
  ⟨blockedGeom_infeasible (80, 7),
    objective_infeasible_sentinel blockedGeom
      [⟨"Zone 1", 80.2, 6.9, 2000⟩] (80, 7) (blockedGeom_infeasible (80, 7))⟩

/-- C3: `is_feasible` holds exactly when the three checks all pass; a
point strictly outside the allowed region is infeasible; a point
strictly inside the excluded region is infeasible even when it is
inside the allowed region. -/
theorem is_feasible_three_checks (G : Geometry) (p : Coordinate) :
    (is_feasible G p ↔
      inside_sri_lanka G p.1 p.2 ∧ outside_exclusion G p.1 p.2 ∧
        respect_buffer G p.1 p.2) ∧
    (G.sri_lanka_polygon.strictlyOutside p → ¬ is_feasible G p) ∧
    (G.exclusion_clipped.interior p →
      inside_sri_lanka G p.1 p.2 → ¬ is_feasible G p) := by
  refine ⟨Iff.rfl, ?_, ?_⟩
  · rintro ⟨hni, _⟩ ⟨hin, _, _⟩
    exact hni hin
  · rintro hint _ ⟨_, hout, _⟩
    exact hout hint

/-- Evaluation witness for C3: `(2, 2)` is strictly outside the unit
square, hence infeasible for `squareGeom`. -/
theorem is_feasible_three_checks_witness :
    ¬ is_feasible squareGeom (2, 2) :=
  (is_feasible_three_checks squareGeom (2, 2)).2.1
    ⟨by simp [squareGeom, unitSquare],
     by simp [squareGeom, unitSquare]⟩

/-- C4 fails on the code: `(0, 1/2)` lies exactly on the boundary of
the unit-square allowed region, yet the inside check
(Shapely `contains`, which tests interior membership) rejects it. -/
theorem inside_boundary_rejected_cex :
    squareGeom.sri_lanka_polygon.onBoundary (0, 1 / 2) ∧
      ¬ inside_sri_lanka squareGeom 0 (1 / 2) :=
  ⟨unitSquare_boundary_left,
    fun h => lt_irrefl (0 : ℝ) h.1⟩

/-- C4 (amended): the inside check is boundary-exclusive — every
coordinate lying exactly on the boundary of the allowed region is
rejected by the inside check. -/
theorem inside_boundary_excluded (G : Geometry) (p : Coordinate)
    (h : G.sri_lanka_polygon.onBoundary p) :
    ¬ inside_sri_lanka G p.1 p.2 :=
  fun hin => G.sri_lanka_polygon.interior_boundary_disjoint p ⟨hin, h⟩

/-- Evaluation witness for C4 (amended) at the unit-square geometry and
the boundary point `(0, 1/2)`. -/
theorem inside_boundary_excluded_witness :
    ¬ inside_sri_lanka squareGeom 0 (1 / 2) :=
  inside_boundary_excluded squareGeom (0, 1 / 2) unitSquare_boundary_left

/-- C5: the buffer check fails exactly when some sensitive coordinate
is strictly closer than the buffer distance; equivalently it passes
exactly when every sensitive coordinate is at distance at least the
buffer distance, so an exactly-equal distance passes. -/
theorem respect_buffer_strict_lt (G : Geometry) (x y : ℝ) :
    (¬ respect_buffer G x y ↔
      ∃ f ∈ G.sensitive_coords, dist2D (x, y) f < G.buffer_distance) ∧
    (respect_buffer G x y ↔
      ∀ f ∈ G.sensitive_coords, G.buffer_distance ≤ dist2D (x, y) f) := by
  have h := bufferLoop_iff G.buffer_distance x y G.sensitive_coords
  refine ⟨?_, h⟩
  simp only [respect_buffer] at *
  rw [h]
  push_neg
  rfl

/-- Evaluation witness for C5: one sensitive coordinate at `(1, 0)`
with buffer distance `1`; the origin is at distance exactly `1` and
passes the buffer check. -/
theorem respect_buffer_strict_lt_witness :
    respect_buffer bufferGeom 0 0 :=
  (respect_buffer_strict_lt bufferGeom 0 0).2.mpr (by
    intro f hf
    simp only [bufferGeom, List.mem_singleton] at hf
    subst hf
    simp only [bufferGeom, dist2D]
    norm_num)

/-- The Euclidean distance is non-negative. -/
lemma dist2D_nonneg (a b : Coordinate) : 0 ≤ dist2D a b :=
  Real.sqrt_nonneg _

/-- The per-site trip count `ni` is non-negative when the waste
quantity is. -/
lemma trip_count_nonneg {w : ℝ} (hw : 0 ≤ w) :
    (0 : ℝ) ≤ ((⌈(w / 1000) / vehicle_capacity⌉ : ℤ) : ℝ) := by
  have hq : (0 : ℝ) ≤ (w / 1000) / vehicle_capacity :=
    div_nonneg (div_nonneg hw (by norm_num)) (by norm_num [vehicle_capacity])
  exact_mod_cast Int.ceil_nonneg hq

/-- C7: with a single demand site of non-negative waste, the cost at a
feasible point strictly closer to the site is at most the cost at a
feasible point strictly farther from it. -/
theorem cost_monotone_single_site (G : Geometry) (s : Site)
    (p1 p2 : Coordinate) (h1 : is_feasible G p1) (h2 : is_feasible G p2)
    (hw : 0 ≤ s.waste)
    (hd : dist2D (s.longitude, s.latitude) p1 <
      dist2D (s.longitude, s.latitude) p2) :
    objective G [s] p1 ≤ objective G [s] p2 := by
  rw [objective_feasible_eq G [s] p1 h1, objective_feasible_eq G [s] p2 h2]
  simp only [List.map_cons, List.map_nil, List.sum_cons, List.sum_nil,
    add_zero]
  have hc : (0 : ℝ) ≤ cost_per_km := by norm_num [cost_per_km]
  exact mul_le_mul_of_nonneg_left hd.le (mul_nonneg hc (trip_count_nonneg hw))

/-- Evaluation witness for C7: one zone of 2000 tons/day at the origin,
compared from the origin (distance 0) and from `(1, 0)` (distance 1) in
the unconstrained geometry. -/
theorem cost_monotone_single_site_witness :
    objective openGeom [⟨"Zone 1", 0, 0, 2000⟩] (0, 0) ≤
      objective openGeom [⟨"Zone 1", 0, 0, 2000⟩] (1, 0) :=
  cost_monotone_single_site openGeom ⟨"Zone 1", 0, 0, 2000⟩ (0, 0) (1, 0)
    (openGeom_feasible (0, 0)) (openGeom_feasible (1, 0)) (by norm_num)
    (by
      have h0 : dist2D ((0 : ℝ), (0 : ℝ)) (0, 0) = 0 := by
        simp [dist2D]
      have h1 : dist2D ((0 : ℝ), (0 : ℝ)) (1, 0) = 1 := by
        simp [dist2D]
      rw [h0, h1]
      norm_num)

/-- C8: an empty excluded region lets every coordinate pass the
exclusion check, and an empty sensitive-coordinate list lets every
coordinate pass the buffer check. -/
theorem empty_exclusion_and_buffer_pass (G : Geometry) (p : Coordinate) :
    (G.exclusion_clipped.IsEmptyRegion → outside_exclusion G p.1 p.2) ∧
    (G.sensitive_coords = [] → respect_buffer G p.1 p.2) := by
  constructor
  · intro hemp hc
    exact hemp.1 (p.1, p.2) hc
  · intro h
    simp [respect_buffer, h, bufferLoop]

/-- Evaluation witness for C8 at the unconstrained geometry (empty
exclusion region, empty sensitive-coordinate list) and `(80, 7)`. -/
theorem empty_exclusion_and_buffer_pass_witness :
    outside_exclusion openGeom 80 7 ∧ respect_buffer openGeom 80 7 :=
  ⟨(empty_exclusion_and_buffer_pass openGeom (80, 7)).1
      ⟨fun _ h => h, fun _ h => h⟩,
   (empty_exclusion_and_buffer_pass openGeom (80, 7)).2 rfl⟩

/-- C9: a coordinate exactly on the boundary of the excluded region
passes the exclusion check (Shapely containment is strict), and such a
coordinate is feasible whenever it also lies strictly inside the
allowed region and respects every buffer distance. -/
theorem exclusion_boundary_passes (G : Geometry) (p : Coordinate) :
    (G.exclusion_clipped.onBoundary p → outside_exclusion G p.1 p.2) ∧
    (G.exclusion_clipped.onBoundary p → G.sri_lanka_polygon.interior p →
      respect_buffer G p.1 p.2 → is_feasible G p) := by
  have hout : G.exclusion_clipped.onBoundary p →
      outside_exclusion G p.1 p.2 := by
    intro hb hc
    exact G.exclusion_clipped.interior_boundary_disjoint p ⟨hc, hb⟩
  exact ⟨hout, fun hb hin hbuf => ⟨hin, hout hb, hbuf⟩⟩

/-- Evaluation witness for C9: the unit square as excluded region, the
whole plane allowed, boundary point `(0, 1/2)` is feasible. -/
theorem exclusion_boundary_passes_witness :
    is_feasible exclGeom (0, 1 / 2) :=
  (exclusion_boundary_passes exclGeom (0, 1 / 2)).2
    unitSquare_boundary_left trivial
    (by simp [respect_buffer, exclGeom, bufferLoop])

/-- C10: for sites with non-negative waste quantities the objective is
a (finite) non-negative real number at every coordinate, and at a
feasible coordinate with no sites it is exactly 0. -/
theorem objective_nonneg_and_empty_zero (G : Geometry)
    (sites : List Site) (p : Coordinate)
    (hw : ∀ s ∈ sites, 0 ≤ s.waste) :
    0 ≤ objective G sites p ∧
      (is_feasible G p → objective G ([] : List Site) p = 0) := by
  constructor
  · by_cases h : is_feasible G p
    · rw [objective_feasible_eq G sites p h]
      apply List.sum_nonneg
      intro a ha
      obtain ⟨s, hs, rfl⟩ := List.mem_map.mp ha
      have hc : (0 : ℝ) ≤ cost_per_km := by norm_num [cost_per_km]
      exact mul_nonneg (mul_nonneg hc (trip_count_nonneg (hw s hs)))
        (dist2D_nonneg _ _)
    · simp only [objective, if_neg h]
      norm_num
  · intro h
    simp [objective, if_pos h]

/-- Evaluation witness for C10 at the unconstrained geometry: one zone
of 2000 tons/day gives a non-negative cost, and the empty zone list at
the feasible point `(80, 7)` gives cost 0. -/
theorem objective_nonneg_and_empty_zero_witness :
    0 ≤ objective openGeom [⟨"Zone 1", 80.2, 6.9, 2000⟩] (80, 7) ∧
      objective openGeom ([] : List Site) (80, 7) = 0 :=
  ⟨(objective_nonneg_and_empty_zero openGeom [⟨"Zone 1", 80.2, 6.9, 2000⟩]
      (80, 7) (by
        intro s hs
        simp only [List.mem_singleton] at hs
        subst hs
        norm_num)).1,
   (objective_nonneg_and_empty_zero openGeom ([] : List Site) (80, 7)
      (by simp)).2 (openGeom_feasible (80, 7))⟩

end
